import Mathlib

/-!
Shallow embedding of pkg/k8shandler/nodehelpers.go from
doytsujin/elasticsearch-operator, together with theorems checking the
natural-language specification of that file.

Kubernetes resource quantities are modelled at the boundary: a quantity is
its canonical string, the zero (absent) quantity is the empty string, and
parsing a well-formed canonical string is the identity on that string.
The external claim store call createOrUpdatePersistentVolumeClaim is not
part of the embedded file; it is passed in as an oracle returning an
optional error, and every invocation is recorded in a trace.
-/

namespace NodeHelpers

/-- Boundary model of k8s resource.Quantity: the canonical string form.
The zero quantity (also an absent map entry) is the empty string. -/
structure Quantity where
  repr : String
deriving DecidableEq, Repr

/-- Go: quantity.IsZero(). -/
def Quantity.isZero (q : Quantity) : Bool := q.repr = ""

/-- Go: resource.ParseQuantity on a well-formed canonical string. -/
def parseQuantity (s : String) : Quantity := ⟨s⟩

/-- Go: v1.ResourceList restricted to the two keys this file reads;
an absent key is the zero quantity. -/
structure ResourceList where
  cpu : Quantity
  memory : Quantity
deriving DecidableEq, Repr

/-- Go: the Resources field of the node spec (limits and requests). -/
structure ResourceRequirementsIn where
  limits : ResourceList
  requests : ResourceList
deriving DecidableEq, Repr

/-- Go: v1.HostPathVolumeSource (only the path matters here). -/
structure HostPathVolumeSource where
  path : String
deriving DecidableEq, Repr

/-- Go: v1.EmptyDirVolumeSource (payload opaque to this file). -/
structure EmptyDirVolumeSource where
  medium : String
deriving DecidableEq, Repr

/-- Go: v1.PersistentVolumeClaimVolumeSource. -/
structure PersistentVolumeClaimVolumeSource where
  claimName : String
deriving DecidableEq, Repr

/-- Go: v1.PersistentVolumeClaimSpec, opaque to this file: it is only
forwarded to the external store. -/
structure PersistentVolumeClaimSpec where
  payload : String
deriving DecidableEq, Repr

/-- Go: the VolumeClaimTemplate of the storage spec: an object with a
name and a claim spec. -/
structure PersistentVolumeClaimTemplate where
  name : String
  spec : PersistentVolumeClaimSpec
deriving DecidableEq, Repr

/-- Go: the Storage field of the node spec: four optional variants. -/
structure StorageSpec where
  hostPath : Option HostPathVolumeSource
  emptyDir : Option EmptyDirVolumeSource
  volumeClaimTemplate : Option PersistentVolumeClaimTemplate
  persistentVolumeClaim : Option PersistentVolumeClaimVolumeSource
deriving DecidableEq, Repr

/-- Go: v1.SecretVolumeSource. -/
structure SecretVolumeSource where
  secretName : String
deriving DecidableEq, Repr

/-- Go: v1.ConfigMapVolumeSource (LocalObjectReference name). -/
structure ConfigMapVolumeSource where
  name : String
deriving DecidableEq, Repr

/-- Go: v1.VolumeSource restricted to the five variants this file can
produce. -/
structure VolumeSource where
  hostPath : Option HostPathVolumeSource
  emptyDir : Option EmptyDirVolumeSource
  persistentVolumeClaim : Option PersistentVolumeClaimVolumeSource
  secret : Option SecretVolumeSource
  configMap : Option ConfigMapVolumeSource
deriving DecidableEq, Repr

/-- Go: the zero value v1.VolumeSource\x7b\x7d. -/
def emptyVolumeSource : VolumeSource :=
  { hostPath := none, emptyDir := none, persistentVolumeClaim := none,
    secret := none, configMap := none }

/-- Go: v1.Volume. -/
structure Volume where
  name : String
  volumeSource : VolumeSource
deriving DecidableEq, Repr

/-- Go: v1.VolumeMount (only the fields this file sets). -/
structure VolumeMount where
  name : String
  mountPath : String
deriving DecidableEq, Repr

/-- Go: v1.ObjectFieldSelector. -/
structure ObjectFieldSelector where
  fieldPath : String
deriving DecidableEq, Repr

/-- Go: v1.EnvVarSource (only FieldRef is used). -/
structure EnvVarSource where
  fieldRef : Option ObjectFieldSelector
deriving DecidableEq, Repr

/-- Go: v1.EnvVar. -/
structure EnvVar where
  name : String
  value : String
  valueFrom : Option EnvVarSource
deriving DecidableEq, Repr

/-- Go: v1.TCPSocketAction (integer port). -/
structure TCPSocketAction where
  port : Nat
deriving DecidableEq, Repr

/-- Go: v1.Handler (only TCPSocket is used). -/
structure Handler where
  tcpSocket : Option TCPSocketAction
deriving DecidableEq, Repr

/-- Go: v1.Probe (only the fields this file sets). -/
structure Probe where
  timeoutSeconds : Nat
  initialDelaySeconds : Nat
  failureThreshold : Nat
  handler : Handler
deriving DecidableEq, Repr

/-- Go: v1.ContainerPort. -/
structure ContainerPort where
  name : String
  containerPort : Nat
  protocol : String
deriving DecidableEq, Repr

/-- Go: v1.ResourceRequirements as produced by getResourceRequirements. -/
structure ResourceRequirements where
  limits : ResourceList
  requests : ResourceList
deriving DecidableEq, Repr

/-- Go: v1.Container restricted to the fields getESContainer sets. -/
structure Container where
  name : String
  image : String
  imagePullPolicy : String
  env : List EnvVar
  ports : List ContainerPort
  readinessProbe : Probe
  livenessProbe : Probe
  volumeMounts : List VolumeMount
  resources : ResourceRequirements
deriving DecidableEq, Repr

/-- Go: metav1.LabelSelectorRequirement. -/
structure LabelSelectorRequirement where
  key : String
  operator : String
  values : List String
deriving DecidableEq, Repr

/-- Go: metav1.LabelSelector (only MatchExpressions is used). -/
structure LabelSelector where
  matchExpressions : List LabelSelectorRequirement
deriving DecidableEq, Repr

/-- Go: v1.PodAffinityTerm. -/
structure PodAffinityTerm where
  labelSelector : Option LabelSelector
  topologyKey : String
deriving DecidableEq, Repr

/-- Go: v1.WeightedPodAffinityTerm. -/
structure WeightedPodAffinityTerm where
  weight : Nat
  podAffinityTerm : PodAffinityTerm
deriving DecidableEq, Repr

/-- Go: v1.PodAntiAffinity (only the preferred list is used). -/
structure PodAntiAffinity where
  preferredDuringSchedulingIgnoredDuringExecution : List WeightedPodAffinityTerm
deriving DecidableEq, Repr

/-- Go: v1.Affinity (only PodAntiAffinity is used). -/
structure Affinity where
  podAntiAffinity : Option PodAntiAffinity
deriving DecidableEq, Repr

/-- Go: the Config field of the node spec (only Image is read here). -/
structure NodeConfig where
  image : String
deriving DecidableEq, Repr

/-- Go: ElasticsearchNode spec: the fields of ESNodeSpec this file reads. -/
structure ESNodeSpec where
  config : NodeConfig
  resources : ResourceRequirementsIn
  storage : StorageSpec
  nodeSelector : List (String × String)
deriving DecidableEq, Repr

/-- Go: the ElasticsearchSecure field (only Enabled is read here). -/
structure ElasticsearchSecure where
  enabled : Bool
deriving DecidableEq, Repr

/-- Go: the elasticsearchNode receiver: the fields this file reads. -/
structure ElasticsearchNode where
  clusterName : String
  deployName : String
  namespaceName : String
  nodeType : String
  elasticsearchSecure : ElasticsearchSecure
  esNodeSpec : ESNodeSpec
deriving DecidableEq, Repr

/-- Go constant elasticsearchCertsPath. -/
def elasticsearchCertsPath : String := "/etc/elasticsearch/secret"

/-- Go constant elasticsearchConfigPath. -/
def elasticsearchConfigPath : String := "/usr/share/java/elasticsearch/config"

/-- Go constant elasticsearchDefaultImage. -/
def elasticsearchDefaultImage : String := "docker.io/t0ffel/elasticsearch5"

/-- Go constant defaultCPULimit. -/
def defaultCPULimit : String := "4000m"

/-- Go constant defaultCPURequest. -/
def defaultCPURequest : String := "100m"

/-- Go constant defaultMemoryLimit. -/
def defaultMemoryLimit : String := "4Gi"

/-- Go constant defaultMemoryRequest. -/
def defaultMemoryRequest : String := "1Gi"

/-- Go constant heapDumpLocation. -/
def heapDumpLocation : String := "/elasticsearch/persistent/heapdump.hprof"

/-- Go constant promUser. -/
def promUser : String := "prometheus"

/-- Go: getReadinessProbe. -/
def getReadinessProbe : Probe :=
  { timeoutSeconds := 30
    initialDelaySeconds := 10
    failureThreshold := 15
    handler := { tcpSocket := some { port := 9300 } } }

/-- Go: (cfg).getAffinity. -/
def ElasticsearchNode.getAffinity (cfg : ElasticsearchNode) : Affinity :=
  { podAntiAffinity := some
      { preferredDuringSchedulingIgnoredDuringExecution :=
          [ { weight := 100
              podAffinityTerm :=
                { labelSelector := some
                    { matchExpressions :=
                        [ { key := "role"
                            operator := "In"
                            values := [cfg.nodeType] } ] }
                  topologyKey := "kubernetes.io/hostname" } } ] } }

/-- Modelled from the spec: isNodeMaster is defined elsewhere in the
repository (not under the sources given here); per the spec it is a boolean
role flag derived solely from the node role, rendered as a string. -/
def ElasticsearchNode.isNodeMaster (cfg : ElasticsearchNode) : String :=
  if cfg.nodeType = "master" then "true" else "false"

/-- Modelled from the spec: isNodeData is defined elsewhere in the
repository (not under the sources given here); per the spec it is a boolean
role flag derived solely from the node role, rendered as a string. -/
def ElasticsearchNode.isNodeData (cfg : ElasticsearchNode) : String :=
  if cfg.nodeType = "data" then "true" else "false"

/-- Go: (cfg).getInstanceRAM. -/
def ElasticsearchNode.getInstanceRAM (cfg : ElasticsearchNode) : String :=
  let memory := cfg.esNodeSpec.resources.limits.memory
  if !memory.isZero then memory.repr else defaultMemoryLimit

/-- Go: (cfg).getEnvVars. -/
def ElasticsearchNode.getEnvVars (cfg : ElasticsearchNode) : List EnvVar :=
  [ { name := "DC_NAME", value := cfg.deployName, valueFrom := none }
  , { name := "NAMESPACE", value := ""
      valueFrom := some { fieldRef := some { fieldPath := "metadata.namespace" } } }
  , { name := "KUBERNETES_TRUST_CERT", value := "true", valueFrom := none }
  , { name := "SERVICE_DNS", value := cfg.clusterName ++ "-cluster", valueFrom := none }
  , { name := "CLUSTER_NAME", value := cfg.clusterName, valueFrom := none }
  , { name := "INSTANCE_RAM", value := cfg.getInstanceRAM, valueFrom := none }
  , { name := "HEAP_DUMP_LOCATION", value := heapDumpLocation, valueFrom := none }
  , { name := "NODE_QUORUM", value := "1", valueFrom := none }
  , { name := "RECOVER_EXPECTED_NODES", value := "1", valueFrom := none }
  , { name := "RECOVER_AFTER_TIME", value := "5m", valueFrom := none }
  , { name := "READINESS_PROBE_TIMEOUT", value := "30", valueFrom := none }
  , { name := "POD_LABEL", value := "cluster=" ++ cfg.clusterName, valueFrom := none }
  , { name := "IS_MASTER", value := cfg.isNodeMaster, valueFrom := none }
  , { name := "HAS_DATA", value := cfg.isNodeData, valueFrom := none }
  , { name := "PROMETHEUS_USER", value := promUser, valueFrom := none }
  , { name := "PRIMARY_SHARDS", value := "1", valueFrom := none }
  , { name := "REPLICA_SHARDS", value := "0", valueFrom := none } ]

/-- Go: (cfg).getResourceRequirements (the logrus.Infof record is not part
of the returned value and is omitted). -/
def ElasticsearchNode.getResourceRequirements (cfg : ElasticsearchNode) :
    ResourceRequirements :=
  let limitCPU :=
    if (cfg.esNodeSpec.resources.limits.cpu).isZero then
      parseQuantity defaultCPULimit
    else cfg.esNodeSpec.resources.limits.cpu
  let limitMem := parseQuantity cfg.getInstanceRAM
  let requestCPU :=
    if (cfg.esNodeSpec.resources.requests.cpu).isZero then
      parseQuantity defaultCPURequest
    else cfg.esNodeSpec.resources.requests.cpu
  let requestMem :=
    if (cfg.esNodeSpec.resources.requests.memory).isZero then
      parseQuantity defaultMemoryRequest
    else cfg.esNodeSpec.resources.requests.memory
  { limits := { cpu := limitCPU, memory := limitMem }
    requests := { cpu := requestCPU, memory := requestMem } }

/-- Go: (cfg).getVolumeMounts. -/
def ElasticsearchNode.getVolumeMounts (cfg : ElasticsearchNode) :
    List VolumeMount :=
  let mounts :=
    [ { name := "elasticsearch-storage"
        mountPath := "/elasticsearch/persistent" : VolumeMount }
    , { name := "elasticsearch-config", mountPath := elasticsearchConfigPath } ]
  if cfg.elasticsearchSecure.enabled then
    mounts ++ [ { name := "certificates", mountPath := elasticsearchCertsPath } ]
  else mounts

/-- A recorded invocation of the external store call
createOrUpdatePersistentVolumeClaim(spec, claimName, namespace). -/
structure UpsertCall where
  claimSpec : PersistentVolumeClaimSpec
  claimName : String
  namespaceName : String
deriving DecidableEq, Repr

/-- Log severity of the logrus calls in this file. -/
inductive LogLevel where
  | info
  | error
deriving DecidableEq, Repr

/-- A recorded logrus message. -/
structure LogEntry where
  level : LogLevel
  message : String
deriving DecidableEq, Repr

/-- The external store: given the claim spec, claim name and namespace it
returns an optional error string. -/
def StoreOracle : Type := PersistentVolumeClaimSpec → String → String → Option String

/-- Go: (cfg).generatePersistentStorage, with the external
createOrUpdatePersistentVolumeClaim call abstracted into an oracle; the
result carries the produced volume source, the trace of store calls and the
trace of logrus messages. -/
def ElasticsearchNode.generatePersistentStorage (cfg : ElasticsearchNode)
    (store : StoreOracle) : VolumeSource × List UpsertCall × List LogEntry :=
  let specVol := cfg.esNodeSpec.storage
  match specVol.hostPath, specVol.emptyDir, specVol.volumeClaimTemplate,
      specVol.persistentVolumeClaim with
  | some hp, _, _, _ =>
      ({ emptyVolumeSource with hostPath := some hp }, [], [])
  | none, some ed, _, _ =>
      ({ emptyVolumeSource with emptyDir := some ed }, [], [])
  | none, none, some tmpl, _ =>
      let claimName := tmpl.name ++ "-" ++ cfg.deployName
      let volClaim : PersistentVolumeClaimVolumeSource := { claimName := claimName }
      let callLog : List LogEntry :=
        match store tmpl.spec claimName cfg.namespaceName with
        | some e =>
            [ { level := LogLevel.error
                message := "Unable to create PersistentVolumeClaim: " ++ e } ]
        | none => []
      ({ emptyVolumeSource with persistentVolumeClaim := some volClaim },
        [ { claimSpec := tmpl.spec, claimName := claimName
            namespaceName := cfg.namespaceName } ],
        callLog)
  | none, none, none, some pvc =>
      ({ emptyVolumeSource with persistentVolumeClaim := some pvc }, [], [])
  | none, none, none, none =>
      (emptyVolumeSource, [],
        [ { level := LogLevel.info, message := "Unknown volume source" } ])

/-- Go: (cfg).getVolumes, threading the store oracle and the traces of
generatePersistentStorage through. -/
def ElasticsearchNode.getVolumes (cfg : ElasticsearchNode)
    (store : StoreOracle) : List Volume × List UpsertCall × List LogEntry :=
  let gen := cfg.generatePersistentStorage store
  let vols :=
    [ { name := "elasticsearch-storage", volumeSource := gen.1 : Volume }
    , { name := "elasticsearch-config"
        volumeSource :=
          { emptyVolumeSource with
              configMap := some { name := cfg.clusterName } } } ]
  let vols :=
    if cfg.elasticsearchSecure.enabled then
      vols ++
        [ { name := "certificates"
            volumeSource :=
              { emptyVolumeSource with
                  secret := some { secretName := cfg.clusterName ++ "-certs" } } } ]
    else vols
  (vols, gen.2.1, gen.2.2)

/-- Go: (cfg).getESContainer (probe is built once and reused for both
health checks). -/
def ElasticsearchNode.getESContainer (cfg : ElasticsearchNode) : Container :=
  let image :=
    if cfg.esNodeSpec.config.image = "" then elasticsearchDefaultImage
    else cfg.esNodeSpec.config.image
  let probe := getReadinessProbe
  { name := "elasticsearch"
    image := image
    imagePullPolicy := "Always"
    env := cfg.getEnvVars
    ports :=
      [ { name := "cluster", containerPort := 9300, protocol := "TCP" }
      , { name := "restapi", containerPort := 9200, protocol := "TCP" } ]
    readinessProbe := probe
    livenessProbe := probe
    volumeMounts := cfg.getVolumeMounts
    resources := cfg.getResourceRequirements }

/-- Value of the first environment entry with the given name. -/
def envValue (env : List EnvVar) (n : String) : Option String :=
  (env.find? (fun e => e.name == n)).map (fun e => e.value)

/-- Number of populated sub-fields of a volume source. -/
def populatedCount (v : VolumeSource) : Nat :=
  (if v.hostPath.isSome then 1 else 0) +
  (if v.emptyDir.isSome then 1 else 0) +
  (if v.persistentVolumeClaim.isSome then 1 else 0) +
  (if v.secret.isSome then 1 else 0) +
  (if v.configMap.isSome then 1 else 0)

/-- The zero quantity (absent entry). -/
def zeroQuantity : Quantity := { repr := "" }

/-- A fully empty node spec: no resources, no image, no storage variant. -/
def emptyNodeSpec : ESNodeSpec :=
  { config := { image := "" }
    resources :=
      { limits := { cpu := zeroQuantity, memory := zeroQuantity }
        requests := { cpu := zeroQuantity, memory := zeroQuantity } }
    storage :=
      { hostPath := none, emptyDir := none, volumeClaimTemplate := none
        persistentVolumeClaim := none }
    nodeSelector := [] }

/-- Concrete scenario node: empty spec, role master, security off. -/
def masterNode : ElasticsearchNode :=
  { clusterName := "es", deployName := "es-master", namespaceName := "default"
    nodeType := "master", elasticsearchSecure := { enabled := false }
    esNodeSpec := emptyNodeSpec }

/-- Concrete scenario node: claim-template storage variant with template
name data and deploy name es-node-1. -/
def claimNode : ElasticsearchNode :=
  { clusterName := "es", deployName := "es-node-1", namespaceName := "default"
    nodeType := "data", elasticsearchSecure := { enabled := false }
    esNodeSpec :=
      { emptyNodeSpec with
          storage :=
            { hostPath := none, emptyDir := none
              volumeClaimTemplate :=
                some { name := "data", spec := { payload := "pvc-spec" } }
              persistentVolumeClaim := none } } }

/-- A store oracle that always fails. -/
def failStore : StoreOracle := fun _ _ _ => some "boom"

/-- A store oracle that always succeeds. -/
def okStore : StoreOracle := fun _ _ _ => none

/-- Claim C1: for every node, the INSTANCE_RAM environment value and the
string form of the resolved memory limit are textually equal, both being
the input memory limit string when it is non-zero and the default 4Gi
otherwise; both are produced by the single rule getInstanceRAM. -/
theorem instance_ram_equals_memory_limit (cfg : ElasticsearchNode) :
    envValue cfg.getEnvVars "INSTANCE_RAM" = some cfg.getInstanceRAM ∧
    cfg.getResourceRequirements.limits.memory.repr = cfg.getInstanceRAM ∧
    cfg.getInstanceRAM =
      (if cfg.esNodeSpec.resources.limits.memory.isZero then defaultMemoryLimit
       else cfg.esNodeSpec.resources.limits.memory.repr) := by
  refine ⟨rfl, rfl, ?_⟩
  unfold ElasticsearchNode.getInstanceRAM
  cases h : cfg.esNodeSpec.resources.limits.memory.isZero <;> simp [h]

/-- Claim C2: every resolved resource field equals the input quantity when
that input is non-zero and the fixed default otherwise (CPU limit 4000m,
CPU request 100m, memory limit 4Gi, memory request 1Gi); an empty node
spec resolves to exactly the four defaults. -/
theorem resources_default_resolution (cfg : ElasticsearchNode) :
    cfg.getResourceRequirements =
      { limits :=
          { cpu :=
              if cfg.esNodeSpec.resources.limits.cpu.isZero then
                parseQuantity defaultCPULimit
              else cfg.esNodeSpec.resources.limits.cpu
            memory :=
              if cfg.esNodeSpec.resources.limits.memory.isZero then
                parseQuantity defaultMemoryLimit
              else cfg.esNodeSpec.resources.limits.memory }
        requests :=
          { cpu :=
              if cfg.esNodeSpec.resources.requests.cpu.isZero then
                parseQuantity defaultCPURequest
              else cfg.esNodeSpec.resources.requests.cpu
            memory :=
              if cfg.esNodeSpec.resources.requests.memory.isZero then
                parseQuantity defaultMemoryRequest
              else cfg.esNodeSpec.resources.requests.memory } } ∧
    masterNode.getResourceRequirements =
      { limits := { cpu := { repr := "4000m" }, memory := { repr := "4Gi" } }
        requests := { cpu := { repr := "100m" }, memory := { repr := "1Gi" } } } := by
  constructor
  · unfold ElasticsearchNode.getResourceRequirements
      ElasticsearchNode.getInstanceRAM
    cases h : cfg.esNodeSpec.resources.limits.memory.isZero <;>
      simp [h, parseQuantity, defaultMemoryLimit]
  · rfl

/-- Claim C3: the resolved volume source populates exactly the variant
selected by the precedence host-path, then ephemeral-dir, then
claim-template, then existing-claim-reference; at most one sub-field of
the result is populated. -/
theorem storage_variant_precedence (cfg : ElasticsearchNode)
    (store : StoreOracle) :
    (cfg.generatePersistentStorage store).1 =
      (if cfg.esNodeSpec.storage.hostPath.isSome then
        { emptyVolumeSource with hostPath := cfg.esNodeSpec.storage.hostPath }
      else if cfg.esNodeSpec.storage.emptyDir.isSome then
        { emptyVolumeSource with emptyDir := cfg.esNodeSpec.storage.emptyDir }
      else if cfg.esNodeSpec.storage.volumeClaimTemplate.isSome then
        { emptyVolumeSource with
            persistentVolumeClaim :=
              cfg.esNodeSpec.storage.volumeClaimTemplate.map
                (fun t => { claimName := t.name ++ "-" ++ cfg.deployName }) }
      else if cfg.esNodeSpec.storage.persistentVolumeClaim.isSome then
        { emptyVolumeSource with
            persistentVolumeClaim := cfg.esNodeSpec.storage.persistentVolumeClaim }
      else emptyVolumeSource) ∧
    populatedCount (cfg.generatePersistentStorage store).1 ≤ 1 := by
  cases hHP : cfg.esNodeSpec.storage.hostPath <;>
    cases hED : cfg.esNodeSpec.storage.emptyDir <;>
      cases hT : cfg.esNodeSpec.storage.volumeClaimTemplate <;>
        cases hP : cfg.esNodeSpec.storage.persistentVolumeClaim <;>
          simp [ElasticsearchNode.generatePersistentStorage, hHP, hED, hT, hP,
            populatedCount, emptyVolumeSource]

/-- Claim C4: the security flag is true exactly when both the credentials
volume (named certificates, with secret clusterName-certs) and the
credentials mount (named certificates) are present; when false neither is
present, and volume and mount presence always agree. -/
theorem security_flag_credentials (cfg : ElasticsearchNode)
    (store : StoreOracle) :
    (cfg.elasticsearchSecure.enabled = true ↔
      ({ name := "certificates"
         volumeSource :=
           { emptyVolumeSource with
               secret := some { secretName := cfg.clusterName ++ "-certs" } }
         : Volume } ∈ (cfg.getVolumes store).1 ∧
       ({ name := "certificates", mountPath := elasticsearchCertsPath
          : VolumeMount }) ∈ cfg.getVolumeMounts)) ∧
    (cfg.elasticsearchSecure.enabled = false ↔
      ((∀ v ∈ (cfg.getVolumes store).1, v.name ≠ "certificates") ∧
       (∀ m ∈ cfg.getVolumeMounts, m.name ≠ "certificates"))) ∧
    ((∃ v ∈ (cfg.getVolumes store).1, v.name = "certificates") ↔
      (∃ m ∈ cfg.getVolumeMounts, m.name = "certificates")) := by
  cases hE : cfg.elasticsearchSecure.enabled <;>
    simp [ElasticsearchNode.getVolumes, ElasticsearchNode.getVolumeMounts, hE]

/-- Claim C5: with the claim-template variant selected, the claim name is
templateName-deployName, the external upsert is invoked exactly once with
that name, the volume source references that name for every store outcome,
and an upsert error is only logged. -/
theorem claim_template_upsert (cfg : ElasticsearchNode) (store : StoreOracle)
    (t : PersistentVolumeClaimTemplate)
    (h1 : cfg.esNodeSpec.storage.hostPath = none)
    (h2 : cfg.esNodeSpec.storage.emptyDir = none)
    (h3 : cfg.esNodeSpec.storage.volumeClaimTemplate = some t) :
    (cfg.generatePersistentStorage store).1.persistentVolumeClaim =
      some { claimName := t.name ++ "-" ++ cfg.deployName } ∧
    (cfg.generatePersistentStorage store).2.1 =
      [ { claimSpec := t.spec, claimName := t.name ++ "-" ++ cfg.deployName
          namespaceName := cfg.namespaceName } ] ∧
    (cfg.generatePersistentStorage store).2.2 =
      (match store t.spec (t.name ++ "-" ++ cfg.deployName) cfg.namespaceName with
       | some e =>
           [ { level := LogLevel.error
               message := "Unable to create PersistentVolumeClaim: " ++ e } ]
       | none => []) := by
  simp [ElasticsearchNode.generatePersistentStorage, h1, h2, h3]

/-- Witness for claim C5: template name data, deploy name es-node-1 and a
failing store yield claim name data-es-node-1, exactly one upsert call and
an error log entry. -/
theorem claim_template_upsert_witness :
    (claimNode.generatePersistentStorage failStore).1.persistentVolumeClaim =
      some { claimName := "data-es-node-1" } ∧
    (claimNode.generatePersistentStorage failStore).2.1 =
      [ { claimSpec := { payload := "pvc-spec" }, claimName := "data-es-node-1"
          namespaceName := "default" } ] ∧
    (claimNode.generatePersistentStorage failStore).2.2 =
      [ { level := LogLevel.error
          message := "Unable to create PersistentVolumeClaim: boom" } ] := by
  have h := claim_template_upsert claimNode failStore
    { name := "data", spec := { payload := "pvc-spec" } } rfl rfl rfl
  simpa [failStore] using h

/-- Claim C6: with no storage variant populated, resolution returns the
all-empty volume source, records no store call, emits a single diagnostic,
and the volumes list still starts with the primary-storage binding holding
the empty source. -/
theorem empty_storage_graceful (cfg : ElasticsearchNode) (store : StoreOracle)
    (h : cfg.esNodeSpec.storage =
      { hostPath := none, emptyDir := none, volumeClaimTemplate := none
        persistentVolumeClaim := none }) :
    cfg.generatePersistentStorage store =
      (emptyVolumeSource, [],
        [ { level := LogLevel.info, message := "Unknown volume source" } ]) ∧
    ((cfg.getVolumes store).1).head? =
      some { name := "elasticsearch-storage", volumeSource := emptyVolumeSource } := by
  cases hE : cfg.elasticsearchSecure.enabled <;>
    simp [ElasticsearchNode.generatePersistentStorage,
      ElasticsearchNode.getVolumes, h, hE]

/-- Witness for claim C6: the empty master node with a succeeding store. -/
theorem empty_storage_graceful_witness :
    masterNode.generatePersistentStorage okStore =
      (emptyVolumeSource, [],
        [ { level := LogLevel.info, message := "Unknown volume source" } ]) ∧
    ((masterNode.getVolumes okStore).1).head? =
      some { name := "elasticsearch-storage", volumeSource := emptyVolumeSource } :=
  empty_storage_graceful masterNode okStore rfl

/-- Claim C7: flipping only the security flag leaves the environment list,
image, ports, probes, resource requirements and affinity unchanged. -/
theorem security_flag_frame (cfg : ElasticsearchNode) (b : Bool) :
    ({ cfg with elasticsearchSecure := { enabled := b } }
        : ElasticsearchNode).getEnvVars = cfg.getEnvVars ∧
    ({ cfg with elasticsearchSecure := { enabled := b } }
        : ElasticsearchNode).getESContainer.image = cfg.getESContainer.image ∧
    ({ cfg with elasticsearchSecure := { enabled := b } }
        : ElasticsearchNode).getESContainer.ports = cfg.getESContainer.ports ∧
    ({ cfg with elasticsearchSecure := { enabled := b } }
        : ElasticsearchNode).getESContainer.readinessProbe =
      cfg.getESContainer.readinessProbe ∧
    ({ cfg with elasticsearchSecure := { enabled := b } }
        : ElasticsearchNode).getESContainer.livenessProbe =
      cfg.getESContainer.livenessProbe ∧
    ({ cfg with elasticsearchSecure := { enabled := b } }
        : ElasticsearchNode).getESContainer.resources =
      cfg.getESContainer.resources ∧
    ({ cfg with elasticsearchSecure := { enabled := b } }
        : ElasticsearchNode).getAffinity = cfg.getAffinity :=
  ⟨rfl, rfl, rfl, rfl, rfl, rfl, rfl⟩

/-- Claim C8: resolution is deterministic: equal node descriptors and equal
store behaviour give identical container, volumes and affinity outputs. -/
theorem resolution_deterministic (cfg cfg' : ElasticsearchNode)
    (store store' : StoreOracle) (hc : cfg' = cfg) (hs : store' = store) :
    cfg'.getESContainer = cfg.getESContainer ∧
    cfg'.getVolumes store' = cfg.getVolumes store ∧
    cfg'.getAffinity = cfg.getAffinity := by
  subst hc
  subst hs
  exact ⟨rfl, rfl, rfl⟩

/-- Witness for claim C8: the concrete master node resolved twice. -/
theorem resolution_deterministic_witness :
    masterNode.getESContainer = masterNode.getESContainer ∧
    masterNode.getVolumes okStore = masterNode.getVolumes okStore ∧
    masterNode.getAffinity = masterNode.getAffinity :=
  resolution_deterministic masterNode masterNode okStore okStore rfl rfl

/-- Claim C9: one probe descriptor (TCP on 9300, delay 10, timeout 30,
failure threshold 15) serves readiness and liveness, and the
READINESS_PROBE_TIMEOUT environment entry equals the probe timeout 30. -/
theorem probe_shared_and_timeout (cfg : ElasticsearchNode) :
    cfg.getESContainer.readinessProbe = getReadinessProbe ∧
    cfg.getESContainer.livenessProbe = cfg.getESContainer.readinessProbe ∧
    getReadinessProbe =
      { timeoutSeconds := 30, initialDelaySeconds := 10, failureThreshold := 15
        handler := { tcpSocket := some { port := 9300 } } } ∧
    envValue cfg.getEnvVars "READINESS_PROBE_TIMEOUT" =
      some (toString getReadinessProbe.timeoutSeconds) :=
  ⟨rfl, rfl, rfl, rfl⟩

/-- Claim C10: the environment list always has exactly 17 entries in a
fixed name order, including HEAP_DUMP_LOCATION fixed to the heap dump path
and PROMETHEUS_USER fixed to prometheus. -/
theorem env_contract_shape (cfg : ElasticsearchNode) :
    cfg.getEnvVars.length = 17 ∧
    cfg.getEnvVars.map (fun e => e.name) =
      [ "DC_NAME", "NAMESPACE", "KUBERNETES_TRUST_CERT", "SERVICE_DNS"
      , "CLUSTER_NAME", "INSTANCE_RAM", "HEAP_DUMP_LOCATION", "NODE_QUORUM"
      , "RECOVER_EXPECTED_NODES", "RECOVER_AFTER_TIME"
      , "READINESS_PROBE_TIMEOUT", "POD_LABEL", "IS_MASTER", "HAS_DATA"
      , "PROMETHEUS_USER", "PRIMARY_SHARDS", "REPLICA_SHARDS" ] ∧
    envValue cfg.getEnvVars "HEAP_DUMP_LOCATION" =
      some "/elasticsearch/persistent/heapdump.hprof" ∧
    envValue cfg.getEnvVars "PROMETHEUS_USER" = some "prometheus" :=
  ⟨rfl, rfl, rfl, rfl⟩

end NodeHelpers
